import Mathlib

/-!
Verification development for the UsersPrompts browser-extension frontend.

The definitions below are a shallow embedding of the repository's source:

* the debounced auto-optimize trigger of the content script
  (src/components/SimpleRefiner.tsx, content-script half: module state,
  handleInputChange, the timer callback, optimizePrompt, replaceInputText);
* the remote optimization client (src/services/api.ts: ApiService.optimizePrompt,
  ApiService.testConnection) and the popup caller handleOptimize
  (OneClickOptimizer);
* the floating-button positioning of SimpleRefiner.tsx
  (positionButtonNearInput) and of src/content.ts (its positionButtonNearInput);
* the background service worker's SharedTextHandoff handling
  (OPEN_POPUP_WITH_TEXT / GET_LAST_TEXT listeners, context-menu listener);
* the floating-button DOM-injection lifecycle (createFloatingButton,
  cleanupOnContextInvalidation).

Machine numbers that the code treats as exact (timestamps, counters) are
modelled as Nat; screen coordinates (JS doubles used for layout arithmetic
without overflow) are modelled as rationals.
-/

namespace UsersPrompts

/-! ### Outcome of the content script's fetch to /prompt-optimizer/optimize
(SimpleRefiner.tsx, optimizePrompt).  The response body's optimized_prompt
field may be absent; an empty string is falsy in the JS fallback
result.optimized_prompt || prompt. -/

inductive FetchOutcome where
  | networkError : FetchOutcome
  | httpError : Nat → FetchOutcome
  | jsonParseError : FetchOutcome
  | parsed : Option String → FetchOutcome
deriving DecidableEq

/-- SimpleRefiner.tsx optimizePrompt: every failure path is caught and the
original prompt is returned; on success the optimized_prompt field is used,
falling back to the original prompt when absent or empty (JS falsy). -/
def optimizePromptResult (o : FetchOutcome) (prompt : String) : String :=
  match o with
  | .networkError => prompt
  | .httpError _ => prompt
  | .jsonParseError => prompt
  | .parsed none => prompt
  | .parsed (some s) => if s.isEmpty then prompt else s

/-- Failure modes of the auto-optimization call: network error, non-2xx
status, or a malformed response (unparsable JSON or a body without the
optimized_prompt field). -/
def FetchOutcome.isFailure : FetchOutcome → Bool
  | .networkError => true
  | .httpError _ => true
  | .jsonParseError => true
  | .parsed none => true
  | .parsed (some _) => false

/-! ### Debounced auto-optimize trigger (SimpleRefiner.tsx content-script
module state and handleInputChange). -/

def debounceMs : Nat := 2000

def minLengthThreshold : Nat := 10

structure TriggerState where
  isChatGPT : Bool
  /-- chatInputField is non-null -/
  located : Bool
  /-- current value of the located textarea -/
  inputValue : String
  lastInputValue : String
  isOptimizing : Bool
  /-- pending debounce timeout: (deadline, captured currentValue closed over
  by the callback); none when no timeout is pending -/
  timer : Option (Nat × String)
  /-- the currentValue captured by the in-flight call -/
  pendingValue : String
  /-- instrumentation: number of remote optimization calls started -/
  callsStarted : Nat
  /-- instrumentation: number of remote optimization calls in flight -/
  callsInFlight : Nat
deriving DecidableEq

/-- Session start on the chat page once the input has been located and the
input listener attached (monitorChatGPTInput). -/
def initialTriggerState : TriggerState :=
  { isChatGPT := true, located := true, inputValue := "", lastInputValue := "",
    isOptimizing := false, timer := none, pendingValue := "",
    callsStarted := 0, callsInFlight := 0 }

/-- SimpleRefiner.tsx handleInputChange: early return unless on the chat page
with a located field and no optimization in flight; then, for meaningful text
(length strictly above 10) that differs from lastInputValue, record it and
clear-and-restart the 2-second debounce timeout capturing the event value. -/
def handleInputChange (now : Nat) (v : String) (s : TriggerState) : TriggerState :=
  if s.isChatGPT = false ∨ s.located = false ∨ s.isOptimizing = true then s
  else if minLengthThreshold < v.length ∧ v ≠ s.lastInputValue then
    { s with lastInputValue := v, timer := some (now + debounceMs, v) }
  else s

/-- An input event on the located field: the DOM value has changed to v and
the attached listener handleInputChange runs on it. -/
def inputStep (now : Nat) (v : String) (s : TriggerState) : TriggerState :=
  handleInputChange now v { s with inputValue := v }

/-- The debounce timeout callback firing.  A cleared timeout never fires, so a
fire at a time other than the pending deadline is a no-op; at the deadline the
callback re-checks the captured value's length and the isOptimizing guard
before starting the remote call. -/
def fireStep (now : Nat) (s : TriggerState) : TriggerState :=
  match s.timer with
  | none => s
  | some (deadline, v) =>
    if now = deadline then
      if minLengthThreshold < v.length ∧ s.isOptimizing = false then
        { s with timer := none, isOptimizing := true, pendingValue := v,
                 callsStarted := s.callsStarted + 1,
                 callsInFlight := s.callsInFlight + 1 }
      else { s with timer := none }
    else s

/-- SimpleRefiner.tsx replaceInputText: overwrite the field value and dispatch
a synthetic input event, which runs handleInputChange synchronously (the
change event it also dispatches has no listener). -/
def replaceInputText (now : Nat) (newText : String) (s : TriggerState) : TriggerState :=
  if s.located = false then s
  else inputStep now newText s

/-- The in-flight optimizePrompt promise settling with outcome o: the timer
callback compares the result with the captured value, overwrites the field
only when they differ, then clears isOptimizing in the finally block. -/
def completeStep (now : Nat) (o : FetchOutcome) (s : TriggerState) : TriggerState :=
  if s.isOptimizing = false then s
  else if optimizePromptResult o s.pendingValue = s.pendingValue then
    { s with isOptimizing := false, callsInFlight := s.callsInFlight - 1 }
  else
    { replaceInputText now (optimizePromptResult o s.pendingValue) s with
      isOptimizing := false,
      callsInFlight :=
        (replaceInputText now (optimizePromptResult o s.pendingValue) s).callsInFlight - 1 }

inductive TriggerEvent where
  | input : Nat → String → TriggerEvent
  | fire : Nat → TriggerEvent
  | complete : Nat → FetchOutcome → TriggerEvent
deriving DecidableEq

def triggerStep (s : TriggerState) (e : TriggerEvent) : TriggerState :=
  match e with
  | .input t v => inputStep t v s
  | .fire t => fireStep t s
  | .complete t o => completeStep t o s

def runTrigger (es : List TriggerEvent) : TriggerState :=
  es.foldl triggerStep initialTriggerState

/-- The guard-flag invariant: the number of in-flight calls is 1 exactly while
isOptimizing is set. -/
def flightInv (s : TriggerState) : Prop :=
  s.callsInFlight = cond s.isOptimizing 1 0

/-! Concrete scenario states used by witnesses and counterexamples. -/

def typedLongText : String := "Explain monads simply"

def typedLongText2 : String := "Explain monads very simply"

def optimizedReplacementText : String :=
  "You are a helpful tutor. Explain monads simply."

/-- A reachable state with one optimization call in flight: a meaningful input
at time 0 followed by the debounce timeout firing at its deadline. -/
def sInFlightExample : TriggerState :=
  runTrigger [.input 0 typedLongText, .fire debounceMs]

/-- Input, timer firing, then a successful response whose optimized text
differs from the captured value, so the trigger overwrites the field. -/
def overwriteScenario : TriggerState :=
  runTrigger [.input 0 typedLongText, .fire debounceMs,
              .complete 2300 (.parsed (some optimizedReplacementText))]

/-! ### Remote optimization client (src/services/api.ts) and the popup caller
(OneClickOptimizer handleOptimize). -/

/-- Shape of an error-response body: api.ts probes data?.detail, data?.error
and data?.message in that order. -/
structure ErrorBody where
  detail : Option String
  error : Option String
  message : Option String
deriving DecidableEq

/-- JS falsy-chain step: an absent or empty string falls through to the
alternative (a || b with string a). -/
def jsOrElse : Option String → String → String
  | some s, alt => if s.isEmpty then alt else s
  | none, alt => alt

/-- api.ts: error.response.data?.detail || data?.error || data?.message ||
"Server error: status". -/
def extractServerMessage (status : Nat) (b : ErrorBody) : String :=
  jsOrElse b.detail
    (jsOrElse b.error
      (jsOrElse b.message ("Server error: " ++ toString status)))

/-- JSON.stringify applied to a string value wraps it in quotes (escaping of
special characters inside the string is elided; the messages in scope contain
none). -/
def jsonStringify (s : String) : String := "\"" ++ s ++ "\""

/-- The slice of the response payload the claims need. -/
structure OptResultData where
  optimized_prompt : String
deriving DecidableEq

/-- PromptOptimizationRequest (src/types/api.ts). -/
structure OptRequest where
  system_prompt : String
  context : Option String := none
  target_audience : Option String := none
  optimization_focus : List String := []
  constraints : Option String := none
deriving DecidableEq

/-- How the axios POST settles, mirroring api.ts's error triage: a response
with non-2xx status (error.response), a request with no response
(error.request), or a request-setup error. -/
inductive ApiOutcome where
  | success : OptResultData → ApiOutcome
  | serverError : Nat → ErrorBody → ApiOutcome
  | noResponse : ApiOutcome
  | setupFailure : String → ApiOutcome
deriving DecidableEq

def ApiOutcome.isFailure : ApiOutcome → Bool
  | .success _ => false
  | _ => true

/-- The observable behaviour of one ApiService.optimizePrompt call: whether
the network request was issued, and the settled result (Except.error carries
the thrown Error's message). -/
structure OptimizeCall where
  networkCallMade : Bool
  result : Except String OptResultData

namespace ApiService

/-- api.ts ApiService.optimizePrompt: the request body is posted
unconditionally (no validation of the text), and failures are rethrown as
classified Error messages. -/
def optimizePrompt (_req : OptRequest) (o : ApiOutcome) : OptimizeCall :=
  { networkCallMade := true,
    result :=
      match o with
      | .success r => Except.ok r
      | .serverError status body =>
          Except.error ("API Error (" ++ toString status ++ "): " ++
            jsonStringify (extractServerMessage status body))
      | .noResponse =>
          Except.error
            "No response from server. Please check if the API server is running on localhost:8000"
      | .setupFailure msg => Except.error ("Request failed: " ++ msg) }

end ApiService

/-- How the liveness probe GET /prompt-optimizer/specializations settles.
With axios, any 2xx response resolves — even when its body is not valid JSON
(axios then leaves the body as a raw string rather than throwing) — while a
non-2xx status or transport failure rejects. -/
inductive ProbeOutcome where
  | respondedOk : Bool → ProbeOutcome
  | respondedError : Nat → ProbeOutcome
  | networkDown : ProbeOutcome
deriving DecidableEq

/-- The probe succeeds exactly when the server answers with a 2xx status (the
Bool records whether the body parsed as JSON, which axios does not require). -/
def probeResolves : ProbeOutcome → Bool
  | .respondedOk _ => true
  | _ => false

/-- The axios GET underlying testConnection: resolves or rejects with an
error message. -/
def axiosProbeGet : ProbeOutcome → Except String Unit
  | .respondedOk _ => Except.ok ()
  | .respondedError status =>
      Except.error ("Request failed with status code " ++ toString status)
  | .networkDown => Except.error "Network Error"

namespace ApiService

/-- api.ts ApiService.testConnection: the whole body sits in try/catch, the
try returning true and the catch logging and returning false.  The Except
codomain records that the function itself could throw; it never does. -/
def testConnection (o : ProbeOutcome) : Except String Bool :=
  match axiosProbeGet o with
  | Except.ok _ => Except.ok true
  | Except.error _ => Except.ok false

end ApiService

/-- What one popup optimization attempt did (OneClickOptimizer
handleOptimize): whether the client was invoked, the final inline error text
(empty when none), whether testConnection was re-run, and success. -/
structure OptimizeAttempt where
  networkCallMade : Bool
  errorShown : String
  retestedConnection : Bool
  succeeded : Bool
deriving DecidableEq

/-- JS String.prototype.trim: strip leading and trailing whitespace, defined
over the character list so that it evaluates by kernel reduction. -/
def jsTrim (s : String) : String :=
  ⟨((s.data.dropWhile Char.isWhitespace).reverse.dropWhile Char.isWhitespace).reverse⟩

/-- OneClickOptimizer handleOptimize: empty or whitespace-only text is
rejected locally before any network call; otherwise the client is invoked
and, on failure, the caught error message is shown and testConnection is
re-invoked. -/
def handleOptimize (currentPrompt : String) (o : ApiOutcome) : OptimizeAttempt :=
  if (jsTrim currentPrompt).isEmpty then
    { networkCallMade := false, errorShown := "Please enter a prompt to optimize",
      retestedConnection := false, succeeded := false }
  else
    let call := ApiService.optimizePrompt { system_prompt := jsTrim currentPrompt } o
    match call.result with
    | Except.ok _ =>
        { networkCallMade := call.networkCallMade, errorShown := "",
          retestedConnection := false, succeeded := true }
    | Except.error msg =>
        { networkCallMade := call.networkCallMade, errorShown := msg,
          retestedConnection := true, succeeded := false }

/-- A non-empty Option String that is blank under JS truthiness (absent or
empty). -/
def blankOpt : Option String → Bool
  | none => true
  | some s => s.isEmpty

def quota429Body : ErrorBody :=
  { detail := none, error := some "quota exceeded", message := none }

def quota429Message : String := "API Error (429): \"quota exceeded\""

def emptyTextRequest : OptRequest := { system_prompt := "" }

def sampleRequest : OptRequest := { system_prompt := "Summarize this page" }

def sampleSuccessResult : OptResultData := { optimized_prompt := "Improved." }

/-! ### Floating-button positioning. -/

/-- A DOMRect as used by the positioning code (right and bottom derived). -/
structure Rect where
  left : ℚ
  top : ℚ
  width : ℚ
  height : ℚ
deriving DecidableEq

def Rect.right (r : Rect) : ℚ := r.left + r.width

def Rect.bottom (r : Rect) : ℚ := r.top + r.height

def buttonSize : ℚ := 56

def viewportPadding : ℚ := 10

/-- SimpleRefiner.tsx positionButtonNearInput, anchored branch, before the
clamp: right of the anchor, else left, else above, else below, else
overlapping the anchor's top-right corner. -/
def rawAnchoredPosition (r : Rect) (vw vh : ℚ) : ℚ × ℚ :=
  if r.right + buttonSize + 5 ≤ vw then
    (r.right + 5, r.top + r.height / 2 - buttonSize / 2)
  else if 0 ≤ r.left - buttonSize - 5 then
    (r.left - buttonSize - 5, r.top + r.height / 2 - buttonSize / 2)
  else if 0 ≤ r.top - buttonSize - 5 then
    (r.left + r.width / 2 - buttonSize / 2, r.top - buttonSize - 5)
  else if r.bottom + buttonSize + 5 ≤ vh then
    (r.left + r.width / 2 - buttonSize / 2, r.bottom + 5)
  else
    (r.right - buttonSize - 10, r.top - buttonSize - 10)

/-- SimpleRefiner.tsx positionButtonNearInput, anchored branch: the candidate
position followed by the viewport clamp
Math.max(padding, Math.min(coord, extent - buttonSize - padding)). -/
def positionButtonNearInput (r : Rect) (vw vh : ℚ) : ℚ × ℚ :=
  let raw := rawAnchoredPosition r vw vh
  (max viewportPadding (min raw.1 (vw - buttonSize - viewportPadding)),
   max viewportPadding (min raw.2 (vh - buttonSize - viewportPadding)))

def contentButtonSize : ℚ := 48

/-- src/content.ts positionButtonNearInput, anchored branch: right of the
anchor, switched to left of the anchor when the right edge would pass
vw - 20; the vertical coordinate is clamped to [20, vh - buttonSize - 20] but
the horizontal coordinate receives no further clamp. -/
def contentPositionButtonNearInput (r : Rect) (vw vh : ℚ) : ℚ × ℚ :=
  let left0 := r.right + 10
  let top0 := r.top + r.height / 2 - contentButtonSize / 2
  let left1 := if vw - 20 < left0 + contentButtonSize
               then r.left - contentButtonSize - 10 else left0
  let top1 := if top0 < 20 then 20
              else if vh - 20 < top0 + contentButtonSize
                    then vh - contentButtonSize - 20 else top0
  (left1, top1)

def wideViewportRect : Rect := { left := 100, top := 200, width := 600, height := 40 }

def tinyViewportRect : Rect := { left := 0, top := 100, width := 200, height := 40 }

def leftEdgeRect : Rect := { left := 0, top := 300, width := 460, height := 40 }

/-! ### SharedTextHandoff between content script, background worker and popup
(background service worker in the repository root sources). -/

inductive HandoffEvent where
  /-- the background receives an OPEN_POPUP_WITH_TEXT message -/
  | openPopupWithText : String → HandoffEvent
  /-- the context-menu item is clicked with the given selection text -/
  | contextMenuClick : String → HandoffEvent
  /-- the content script's floating button is clicked with the given captured
  text: it stores the text and then sends OPEN_POPUP_WITH_TEXT -/
  | floatingButtonClick : String → HandoffEvent
deriving DecidableEq

structure BackgroundState where
  /-- the background worker's in-memory lastSelectedText variable, the value
  GET_LAST_TEXT responds with -/
  lastSelectedText : String
  /-- chrome.storage.local's selectedText entry -/
  storedSelectedText : String
deriving DecidableEq

def initialBackgroundState : BackgroundState :=
  { lastSelectedText := "", storedSelectedText := "" }

/-- The three write paths: OPEN_POPUP_WITH_TEXT sets both the in-memory
variable and the storage entry; the context-menu listener (guarded on a
truthy selectionText) writes only the storage entry; a floating-button click
writes the storage entry from the content script and then sends
OPEN_POPUP_WITH_TEXT, so its net effect sets both. -/
def handoffStep (s : BackgroundState) (e : HandoffEvent) : BackgroundState :=
  match e with
  | .openPopupWithText t => { lastSelectedText := t, storedSelectedText := t }
  | .contextMenuClick t =>
      if t.isEmpty then s else { s with storedSelectedText := t }
  | .floatingButtonClick t => { lastSelectedText := t, storedSelectedText := t }

def runHandoff (es : List HandoffEvent) : BackgroundState :=
  es.foldl handoffStep initialBackgroundState

/-- The GET_LAST_TEXT listener responds with the in-memory variable. -/
def getLastText (s : BackgroundState) : String := s.lastSelectedText

def handoffCounterexampleTrace : List HandoffEvent :=
  [.openPopupWithText "draft prompt alpha", .contextMenuClick "selection beta"]

/-! ### Floating-button DOM injection lifecycle (SimpleRefiner.tsx
createFloatingButton, cleanupOnContextInvalidation, init, urlObserver). -/

structure InjectionState where
  /-- the module-level buttonDiv variable is non-null -/
  buttonDivSet : Bool
  /-- the module-level tooltipDiv variable is non-null -/
  tooltipDivSet : Bool
  /-- the node buttonDiv references is attached to document.body -/
  buttonRefAttached : Bool
  tooltipRefAttached : Bool
  /-- number of injected floating-button elements attached to the page -/
  buttonsInDom : Nat
  tooltipsInDom : Nat
deriving DecidableEq

def initialInjectionState : InjectionState :=
  { buttonDivSet := false, tooltipDivSet := false,
    buttonRefAttached := false, tooltipRefAttached := false,
    buttonsInDom := 0, tooltipsInDom := 0 }

/-- createFloatingButton: returns immediately when buttonDiv is already set;
otherwise builds one button and one tooltip and appends both to
document.body. -/
def createFloatingButton (s : InjectionState) : InjectionState :=
  if s.buttonDivSet then s
  else
    { buttonDivSet := true, tooltipDivSet := true,
      buttonRefAttached := true, tooltipRefAttached := true,
      buttonsInDom := s.buttonsInDom + 1, tooltipsInDom := s.tooltipsInDom + 1 }

/-- First half of cleanupOnContextInvalidation: remove the referenced button
when it is still attached, nulling the reference that was removed. -/
def cleanupButton (s : InjectionState) : InjectionState :=
  if s.buttonDivSet ∧ s.buttonRefAttached then
    { s with buttonsInDom := s.buttonsInDom - 1,
             buttonRefAttached := false, buttonDivSet := false }
  else s

/-- Second half of cleanupOnContextInvalidation: the same for the tooltip. -/
def cleanupTooltip (s : InjectionState) : InjectionState :=
  if s.tooltipDivSet ∧ s.tooltipRefAttached then
    { s with tooltipsInDom := s.tooltipsInDom - 1,
             tooltipRefAttached := false, tooltipDivSet := false }
  else s

/-- cleanupOnContextInvalidation: removes the referenced button and tooltip
when each is still attached. -/
def cleanupOnContextInvalidation (s : InjectionState) : InjectionState :=
  cleanupTooltip (cleanupButton s)

inductive InjectionOp where
  /-- init on page load -/
  | initScript : InjectionOp
  /-- the urlObserver reinitialization after SPA navigation -/
  | urlChangeReinit : InjectionOp
  /-- positionButtonNearInput creating the button when buttonDiv is null -/
  | positionAttempt : InjectionOp
  /-- extension-context invalidation teardown -/
  | contextInvalidated : InjectionOp
deriving DecidableEq

def injectionStep (s : InjectionState) (op : InjectionOp) : InjectionState :=
  match op with
  | .initScript => createFloatingButton s
  | .urlChangeReinit => createFloatingButton s
  | .positionAttempt => if s.buttonDivSet then s else createFloatingButton s
  | .contextInvalidated => cleanupOnContextInvalidation s

def runInjection (ops : List InjectionOp) : InjectionState :=
  ops.foldl injectionStep initialInjectionState

/-- Inductive invariant of the injection lifecycle: the button and tooltip
references move in lockstep, a reference exists exactly while its node is
attached, and the number of attached nodes matches. -/
def injectionInv (s : InjectionState) : Prop :=
  s.buttonDivSet = s.tooltipDivSet ∧
  s.buttonRefAttached = s.tooltipRefAttached ∧
  s.buttonDivSet = s.buttonRefAttached ∧
  s.buttonsInDom = cond s.buttonRefAttached 1 0 ∧
  s.tooltipsInDom = cond s.tooltipRefAttached 1 0

/-! ### Helper lemmas about the trigger. -/

theorem inputStep_cases (now : Nat) (v : String) (s : TriggerState) :
    inputStep now v s = { s with inputValue := v } ∨
    inputStep now v s = { s with inputValue := v, lastInputValue := v,
                                 timer := some (now + debounceMs, v) } := by
  unfold inputStep handleInputChange
  split
  · exact Or.inl rfl
  · split
    · exact Or.inr rfl
    · exact Or.inl rfl

theorem inputStep_inflight (now : Nat) (v : String) (s : TriggerState)
    (hopt : s.isOptimizing = true) :
    inputStep now v s = { s with inputValue := v } := by
  unfold inputStep handleInputChange
  split
  · rfl
  · rename_i h
    exact absurd (Or.inr (Or.inr hopt)) h

theorem inputStep_below_threshold (now : Nat) (v : String) (s : TriggerState)
    (hlen : v.length ≤ minLengthThreshold) :
    inputStep now v s = { s with inputValue := v } := by
  unfold inputStep handleInputChange
  split
  · rfl
  · rw [if_neg]
    intro hcon
    exact absurd hcon.1 (Nat.not_lt.mpr hlen)

theorem inputStep_arms (now : Nat) (v : String) (s : TriggerState)
    (hchat : s.isChatGPT = true) (hloc : s.located = true)
    (hopt : s.isOptimizing = false)
    (hlen : minLengthThreshold < v.length) (hne : v ≠ s.lastInputValue) :
    inputStep now v s =
      { s with inputValue := v, lastInputValue := v,
               timer := some (now + debounceMs, v) } := by
  unfold inputStep handleInputChange
  rw [if_neg, if_pos]
  · exact ⟨hlen, hne⟩
  · intro h
    rcases h with h | h | h
    · rw [show ({ s with inputValue := v } : TriggerState).isChatGPT = s.isChatGPT from rfl,
          hchat] at h
      cases h
    · rw [show ({ s with inputValue := v } : TriggerState).located = s.located from rfl,
          hloc] at h
      cases h
    · rw [show ({ s with inputValue := v } : TriggerState).isOptimizing = s.isOptimizing from rfl,
          hopt] at h
      cases h

theorem fireStep_stale (now : Nat) (s : TriggerState) (d : Nat) (v : String)
    (h : s.timer = some (d, v)) (hne : now ≠ d) :
    fireStep now s = s := by
  unfold fireStep
  rw [h]
  exact if_neg hne

theorem fireStep_callsStarted_le (now : Nat) (s : TriggerState) :
    (fireStep now s).callsStarted ≤ s.callsStarted + 1 := by
  cases h : s.timer with
  | none =>
    simp only [fireStep, h]
    exact Nat.le_succ _
  | some p =>
    obtain ⟨d, v⟩ := p
    simp only [fireStep, h]
    split
    · split
      · exact Nat.le_refl _
      · exact Nat.le_succ _
    · exact Nat.le_succ _

theorem replaceInputText_inflight (now : Nat) (w : String) (s : TriggerState)
    (hopt : s.isOptimizing = true) :
    replaceInputText now w s = s ∨
    replaceInputText now w s = { s with inputValue := w } := by
  unfold replaceInputText
  split
  · exact Or.inl rfl
  · exact Or.inr (inputStep_inflight now w s hopt)

theorem optimizePromptResult_failure (o : FetchOutcome) (p : String)
    (h : o.isFailure = true) : optimizePromptResult o p = p := by
  cases o with
  | networkError => rfl
  | httpError st => rfl
  | jsonParseError => rfl
  | parsed x =>
    cases x with
    | none => rfl
    | some s => simp [FetchOutcome.isFailure] at h

theorem bool_eq_true_of_ne_false (b : Bool) (h : ¬b = false) : b = true := by
  cases b
  · exact absurd rfl h
  · rfl

theorem completeStep_inflight (now : Nat) (o : FetchOutcome) (s : TriggerState)
    (hopt : s.isOptimizing = true) :
    (completeStep now o s).timer = s.timer ∧
    (completeStep now o s).callsStarted = s.callsStarted ∧
    (completeStep now o s).isOptimizing = false ∧
    (completeStep now o s).lastInputValue = s.lastInputValue ∧
    (completeStep now o s).callsInFlight = s.callsInFlight - 1 := by
  unfold completeStep
  rw [if_neg (by rw [hopt]; exact fun h => Bool.noConfusion h)]
  split
  · exact ⟨rfl, rfl, rfl, rfl, rfl⟩
  · rcases replaceInputText_inflight now (optimizePromptResult o s.pendingValue) s hopt
      with heq | heq <;> rw [heq]
    · exact ⟨rfl, rfl, rfl, rfl, rfl⟩
    · exact ⟨rfl, rfl, rfl, rfl, rfl⟩

theorem flightInv_triggerStep (s : TriggerState) (e : TriggerEvent)
    (h : flightInv s) : flightInv (triggerStep s e) := by
  cases e with
  | input t v =>
    show flightInv (inputStep t v s)
    rcases inputStep_cases t v s with heq | heq <;> rw [heq] <;> exact h
  | fire t =>
    show flightInv (fireStep t s)
    cases htimer : s.timer with
    | none => simp only [fireStep, htimer]; exact h
    | some p =>
      obtain ⟨d, v⟩ := p
      simp only [fireStep, htimer]
      split
      · split
        · rename_i hguard
          have hopt : s.isOptimizing = false := hguard.2
          unfold flightInv at h ⊢
          rw [hopt] at h
          show s.callsInFlight + 1 = 1
          rw [show (cond false 1 0 : Nat) = 0 from rfl] at h
          omega
        · exact h
      · exact h
  | complete t o =>
    show flightInv (completeStep t o s)
    unfold completeStep
    split
    · exact h
    · rename_i hne
      have hopt : s.isOptimizing = true := bool_eq_true_of_ne_false _ hne
      unfold flightInv at h ⊢
      rw [hopt] at h
      rw [show (cond true 1 0 : Nat) = 1 from rfl] at h
      split
      · show s.callsInFlight - 1 = cond false 1 0
        rw [show (cond false 1 0 : Nat) = 0 from rfl]
        omega
      · rcases replaceInputText_inflight t (optimizePromptResult o s.pendingValue) s hopt
          with heq | heq <;> rw [heq]
        · show s.callsInFlight - 1 = cond false 1 0
          rw [show (cond false 1 0 : Nat) = 0 from rfl]
          omega
        · show s.callsInFlight - 1 = cond false 1 0
          rw [show (cond false 1 0 : Nat) = 0 from rfl]
          omega

theorem flightInv_foldl (es : List TriggerEvent) :
    ∀ s : TriggerState, flightInv s → flightInv (es.foldl triggerStep s) := by
  induction es with
  | nil => intro s h; exact h
  | cons e es ih => intro s h; exact ih _ (flightInv_triggerStep s e h)

theorem flightInv_run (es : List TriggerEvent) : flightInv (runTrigger es) :=
  flightInv_foldl es initialTriggerState rfl

/-! ### Claims C1 to C4: the debounced auto-optimize trigger. -/

/-- Claim C1, amended: for every page session, at most one auto-optimization
remote call is in flight at a time (enforced by the isOptimizing guard flag);
an input-change event arriving while a call is in flight is ignored by the
trigger — it neither cancels nor duplicates the in-flight call, and it does
not re-arm the debounce timer (only the raw field value changes). -/
theorem C1_single_inflight_input_ignored :
    (∀ es : List TriggerEvent, (runTrigger es).callsInFlight ≤ 1) ∧
    (∀ (s : TriggerState) (t : Nat) (v : String), s.isOptimizing = true →
       inputStep t v s = { s with inputValue := v }) := by
  constructor
  · intro es
    have h := flightInv_run es
    unfold flightInv at h
    rw [h]
    cases (runTrigger es).isOptimizing
    · exact Nat.zero_le 1
    · exact Nat.le_refl 1
  · intro s t v hopt
    exact inputStep_inflight t v s hopt

/-- Witness for claim C1: a concrete reachable state with one call in flight,
at which a later input event leaves the whole trigger state unchanged except
for the raw field value. -/
theorem C1_witness :
    sInFlightExample.isOptimizing = true ∧
    inputStep 2500 typedLongText2 sInFlightExample =
      { sInFlightExample with inputValue := typedLongText2 } :=
  ⟨by decide,
   C1_single_inflight_input_ignored.2 sInFlightExample 2500 typedLongText2 (by decide)⟩

/-- Counterexample to claim C1 as stated: with one call in flight, a
qualifying input-change event (meaningful length, text differing from
lastInputValue) does NOT re-arm the debounce timer for a subsequent attempt —
the timer stays unarmed, because handleInputChange returns early while
isOptimizing is set. -/
theorem C1_counterexample :
    sInFlightExample.isOptimizing = true ∧
    minLengthThreshold < typedLongText2.length ∧
    typedLongText2 ≠ sInFlightExample.lastInputValue ∧
    (inputStep 2500 typedLongText2 sInFlightExample).timer = none := by
  decide

/-- Claim C2: two consecutive qualifying input-change events within the idle
window yield at most one remote call; the debounce deadline is measured from
the last event (each qualifying change clears and restarts the timeout, so
firing at the first event's deadline is a no-op); and a change at or below
the minimum length threshold does not arm the timer at all. -/
theorem C2_debounce_collapses (s : TriggerState) (t1 t2 : Nat) (v1 v2 : String)
    (hchat : s.isChatGPT = true) (hloc : s.located = true)
    (hopt : s.isOptimizing = false)
    (h1len : minLengthThreshold < v1.length) (h1ne : v1 ≠ s.lastInputValue)
    (h2len : minLengthThreshold < v2.length) (h2ne : v2 ≠ v1)
    (horder : t1 < t2) (_hwin : t2 < t1 + debounceMs) :
    (inputStep t2 v2 (inputStep t1 v1 s)).timer = some (t2 + debounceMs, v2) ∧
    (inputStep t2 v2 (inputStep t1 v1 s)).callsStarted = s.callsStarted ∧
    fireStep (t1 + debounceMs) (inputStep t2 v2 (inputStep t1 v1 s)) =
      inputStep t2 v2 (inputStep t1 v1 s) ∧
    (∀ t : Nat,
      (fireStep t (inputStep t2 v2 (inputStep t1 v1 s))).callsStarted ≤ s.callsStarted + 1) ∧
    (∀ (s2 : TriggerState) (t : Nat) (v : String), v.length ≤ minLengthThreshold →
      (inputStep t v s2).timer = s2.timer ∧
      (inputStep t v s2).lastInputValue = s2.lastInputValue) := by
  have e1 := inputStep_arms t1 v1 s hchat hloc hopt h1len h1ne
  have e2 : inputStep t2 v2 (inputStep t1 v1 s) =
      { inputStep t1 v1 s with inputValue := v2, lastInputValue := v2,
                               timer := some (t2 + debounceMs, v2) } := by
    refine inputStep_arms t2 v2 (inputStep t1 v1 s) ?_ ?_ ?_ h2len ?_
    · rw [e1]; exact hchat
    · rw [e1]; exact hloc
    · rw [e1]; exact hopt
    · rw [e1]; exact h2ne
  refine ⟨by rw [e2], by rw [e2, e1], ?_, ?_, ?_⟩
  · refine fireStep_stale _ _ (t2 + debounceMs) v2 (by rw [e2]) ?_
    omega
  · intro t
    have hle := fireStep_callsStarted_le t (inputStep t2 v2 (inputStep t1 v1 s))
    have hcs : (inputStep t2 v2 (inputStep t1 v1 s)).callsStarted = s.callsStarted := by
      rw [e2, e1]
    rw [hcs] at hle
    exact hle
  · intro s2 t v hv
    rw [inputStep_below_threshold t v s2 hv]
    exact ⟨rfl, rfl⟩

/-- Witness for claim C2: two concrete qualifying inputs one second apart,
starting from the initial session state. -/
theorem C2_witness :
    (initialTriggerState.isChatGPT = true ∧ initialTriggerState.isOptimizing = false ∧
     minLengthThreshold < typedLongText.length ∧ typedLongText ≠ initialTriggerState.lastInputValue ∧
     minLengthThreshold < typedLongText2.length ∧ typedLongText2 ≠ typedLongText ∧
     (0 : Nat) < 1000 ∧ 1000 < 0 + debounceMs) ∧
    (inputStep 1000 typedLongText2 (inputStep 0 typedLongText initialTriggerState)).timer =
      some (1000 + debounceMs, typedLongText2) :=
  ⟨by decide,
   (C2_debounce_collapses initialTriggerState 0 1000 typedLongText typedLongText2
      rfl rfl rfl (by decide) (by decide) (by decide) (by decide) (by decide) (by decide)).1⟩

/-- Claim C3: a programmatic overwrite performed by the trigger itself —
including the synthetic input/change events dispatched by replaceInputText,
which run while isOptimizing is still set — never re-arms the trigger's own
debounce timer and never changes the call count; in the concrete
overwrite-in-isolation scenario the remote call count stays at 1 with no
further timer armed, so no optimize-loop can start. -/
theorem C3_overwrite_never_rearms :
    (∀ (s : TriggerState) (now : Nat) (o : FetchOutcome), s.isOptimizing = true →
       (completeStep now o s).timer = s.timer ∧
       (completeStep now o s).callsStarted = s.callsStarted ∧
       (completeStep now o s).isOptimizing = false) ∧
    (overwriteScenario.callsStarted = 1 ∧ overwriteScenario.timer = none ∧
     overwriteScenario.inputValue = optimizedReplacementText ∧
     overwriteScenario.isOptimizing = false) := by
  constructor
  · intro s now o hopt
    obtain ⟨h1, h2, h3, _, _⟩ := completeStep_inflight now o s hopt
    exact ⟨h1, h2, h3⟩
  · decide

/-- Witness for claim C3: the general part applied at the concrete in-flight
state, with a successful response that differs from the captured value. -/
theorem C3_witness :
    sInFlightExample.isOptimizing = true ∧
    (completeStep 2300 (.parsed (some optimizedReplacementText)) sInFlightExample).timer =
      sInFlightExample.timer :=
  ⟨by decide,
   (C3_overwrite_never_rearms.1 sInFlightExample 2300
      (.parsed (some optimizedReplacementText)) (by decide)).1⟩

/-- Claim C4: when the auto-optimization call fails (network error, non-2xx
HTTP status, or malformed response), the completion changes nothing except
clearing the in-flight flag: the located field's value is untouched, no
inline error state is produced (the failure path only logs to the console),
and the trigger returns to Idle. -/
theorem C4_failure_silent (s : TriggerState) (now : Nat) (o : FetchOutcome)
    (hopt : s.isOptimizing = true) (hfail : o.isFailure = true) :
    completeStep now o s =
      { s with isOptimizing := false, callsInFlight := s.callsInFlight - 1 } := by
  unfold completeStep
  rw [if_neg (by rw [hopt]; exact fun h => Bool.noConfusion h),
      if_pos (optimizePromptResult_failure o s.pendingValue hfail)]

/-- Witness for claim C4: a network failure completing at the concrete
in-flight state. -/
theorem C4_witness :
    sInFlightExample.isOptimizing = true ∧
    FetchOutcome.networkError.isFailure = true ∧
    completeStep 2300 .networkError sInFlightExample =
      { sInFlightExample with isOptimizing := false,
                              callsInFlight := sInFlightExample.callsInFlight - 1 } :=
  ⟨by decide, by decide,
   C4_failure_silent sInFlightExample 2300 .networkError (by decide) (by decide)⟩

theorem jsOrElse_blank (o : Option String) (alt : String) (h : blankOpt o = true) :
    jsOrElse o alt = alt := by
  cases o with
  | none => rfl
  | some s => exact if_pos h

/-! ### Claims C5 to C7: the optimization client and its popup caller. -/

/-- Counterexample to claim C5 as stated: ApiService.optimizePrompt issues
the network request even for a request whose text is empty, and reports no
local validation error (on a successful transport outcome its result is the
server result, not an error). -/
theorem C5_counterexample :
    (ApiService.optimizePrompt emptyTextRequest (.success sampleSuccessResult)).networkCallMade
      = true ∧
    (ApiService.optimizePrompt emptyTextRequest (.success sampleSuccessResult)).result =
      Except.ok sampleSuccessResult :=
  ⟨rfl, rfl⟩

/-- Claim C5, amended: the empty-or-whitespace guard lives in the popup
caller, not in the client — for every optimization attempt whose text is
empty or whitespace-only, handleOptimize performs no network call and reports
the local validation error instead, while ApiService.optimizePrompt itself
posts unconditionally. -/
theorem C5_empty_text_guarded_in_popup (p : String) (o : ApiOutcome)
    (h : (jsTrim p).isEmpty = true) :
    (handleOptimize p o).networkCallMade = false ∧
    (handleOptimize p o).errorShown = "Please enter a prompt to optimize" ∧
    (handleOptimize p o).retestedConnection = false := by
  unfold handleOptimize
  rw [if_pos h]
  exact ⟨rfl, rfl, rfl⟩

/-- Witness for claim C5: a whitespace-only prompt. -/
theorem C5_witness :
    ((jsTrim "   ").isEmpty = true) ∧
    (handleOptimize "   " .noResponse).networkCallMade = false :=
  ⟨by decide, (C5_empty_text_guarded_in_popup "   " .noResponse (by decide)).1⟩

/-- Claim C6: testConnection never throws or rejects for any probe outcome —
it resolves to true exactly when the liveness probe succeeds (a 2xx response,
which with axios resolves even when its body is malformed JSON) and to false
on every failure; and the popup caller re-invokes testConnection after any
optimization failure to refresh the connectivity state it shows. -/
theorem C6_testConnection_never_throws :
    (∀ o : ProbeOutcome, ApiService.testConnection o = Except.ok (probeResolves o)) ∧
    (∀ (p : String) (o : ApiOutcome), (jsTrim p).isEmpty = false → o.isFailure = true →
       (handleOptimize p o).retestedConnection = true) := by
  constructor
  · intro o
    cases o <;> rfl
  · intro p o hp ho
    unfold handleOptimize
    rw [if_neg (fun hcon => Bool.noConfusion (hp ▸ hcon))]
    cases o with
    | success r => exact Bool.noConfusion ho
    | serverError st b => rfl
    | noResponse => rfl
    | setupFailure m => rfl

/-- Witness for claim C6: a non-empty prompt whose call gets no response. -/
theorem C6_witness :
    ((jsTrim "hello").isEmpty = false ∧ ApiOutcome.noResponse.isFailure = true) ∧
    (handleOptimize "hello" .noResponse).retestedConnection = true :=
  ⟨⟨by decide, rfl⟩,
   C6_testConnection_never_throws.2 "hello" .noResponse (by decide) rfl⟩

/-- Claim C7: a non-2xx response is classified as a server rejection whose
message is extracted from whichever of the detail / error / message body
fields is present (JS-truthy), defaulting to a message naming the status when
none parse; for a 429 response with body error "quota exceeded", the
classified message contains both "429" and "quota exceeded", and in the popup
flow the rejection is caught and shown, never escaping unhandled. -/
theorem C7_server_rejection_classified :
    (∀ (req : OptRequest) (status : Nat) (b : ErrorBody),
       (ApiService.optimizePrompt req (.serverError status b)).result =
         Except.error ("API Error (" ++ toString status ++ "): " ++
           jsonStringify (extractServerMessage status b))) ∧
    (∀ (status : Nat) (b : ErrorBody),
       blankOpt b.detail = true → blankOpt b.error = true → blankOpt b.message = true →
       extractServerMessage status b = "Server error: " ++ toString status) ∧
    ((ApiService.optimizePrompt sampleRequest (.serverError 429 quota429Body)).result =
       Except.error quota429Message) ∧
    (∃ pre post : String, quota429Message = pre ++ "429" ++ post) ∧
    (∃ pre post : String, quota429Message = pre ++ "quota exceeded" ++ post) ∧
    ((handleOptimize "Summarize this page" (.serverError 429 quota429Body)).errorShown =
       quota429Message ∧
     (handleOptimize "Summarize this page" (.serverError 429 quota429Body)).succeeded = false) := by
  refine ⟨?_, ?_, ?_, ?_, ?_, ?_, ?_⟩
  · intro req status b
    rfl
  · intro status b h1 h2 h3
    unfold extractServerMessage
    rw [jsOrElse_blank _ _ h1, jsOrElse_blank _ _ h2, jsOrElse_blank _ _ h3]
  · rfl
  · exact ⟨"API Error (", "): \"quota exceeded\"", rfl⟩
  · exact ⟨"API Error (429): \"", "\"", rfl⟩
  · decide
  · decide

/-- Witness for claim C7: a body whose three candidate fields are all blank
falls back to the status-named default message. -/
theorem C7_witness :
    (blankOpt (some "") = true ∧ blankOpt (none : Option String) = true) ∧
    extractServerMessage 502 { detail := some "", error := none, message := some "" } =
      "Server error: " ++ toString 502 :=
  ⟨⟨rfl, rfl⟩,
   C7_server_rejection_classified.2.1 502
     { detail := some "", error := none, message := some "" } rfl rfl rfl⟩

/-! ### Claim C8: floating-button positioning. -/

/-- Counterexample to claim C8 as stated: for a viewport narrower than the
button plus both padding margins, the SimpleRefiner clamp leaves the button's
right edge past vw minus padding; and the content.ts variant, which never
clamps the left-fallback horizontal coordinate, places the button's left edge
off-screen for an anchor spanning a normal-sized viewport. -/
theorem C8_counterexample :
    (50 : ℚ) - viewportPadding < (positionButtonNearInput tinyViewportRect 50 600).1 + buttonSize ∧
    (contentPositionButtonNearInput leftEdgeRect 500 800).1 < 0 := by
  constructor
  · norm_num [positionButtonNearInput, rawAnchoredPosition, Rect.right, Rect.bottom,
      buttonSize, viewportPadding, tinyViewportRect]
  · norm_num [contentPositionButtonNearInput, Rect.right, Rect.bottom,
      contentButtonSize, leftEdgeRect]

/-- Claim C8, amended: for the SimpleRefiner implementation, whenever the
viewport is at least the button size plus both padding margins in each
dimension, the final clamped position keeps the control's full bounding box
within the viewport minus the padding on all four edges, whichever of the
five placement fallbacks produced the candidate; in particular the right edge
never exceeds the viewport width minus the padding. -/
theorem C8_clamped_within_padded_viewport (r : Rect) (vw vh : ℚ)
    (hw : buttonSize + 2 * viewportPadding ≤ vw)
    (hh : buttonSize + 2 * viewportPadding ≤ vh) :
    viewportPadding ≤ (positionButtonNearInput r vw vh).1 ∧
    (positionButtonNearInput r vw vh).1 + buttonSize ≤ vw - viewportPadding ∧
    viewportPadding ≤ (positionButtonNearInput r vw vh).2 ∧
    (positionButtonNearInput r vw vh).2 + buttonSize ≤ vh - viewportPadding := by
  have e1 : (positionButtonNearInput r vw vh).1 =
      max viewportPadding
        (min (rawAnchoredPosition r vw vh).1 (vw - buttonSize - viewportPadding)) := rfl
  have e2 : (positionButtonNearInput r vw vh).2 =
      max viewportPadding
        (min (rawAnchoredPosition r vw vh).2 (vh - buttonSize - viewportPadding)) := rfl
  have hw2 : viewportPadding ≤ vw - buttonSize - viewportPadding := by linarith
  have hh2 : viewportPadding ≤ vh - buttonSize - viewportPadding := by linarith
  rw [e1, e2]
  refine ⟨le_max_left _ _, ?_, le_max_left _ _, ?_⟩
  · have hle : max viewportPadding
        (min (rawAnchoredPosition r vw vh).1 (vw - buttonSize - viewportPadding)) ≤
        vw - buttonSize - viewportPadding :=
      max_le hw2 (min_le_right _ _)
    linarith
  · have hle : max viewportPadding
        (min (rawAnchoredPosition r vw vh).2 (vh - buttonSize - viewportPadding)) ≤
        vh - buttonSize - viewportPadding :=
      max_le hh2 (min_le_right _ _)
    linarith

/-- Witness for claim C8: a 1280 by 800 viewport with a wide anchor. -/
theorem C8_witness :
    (buttonSize + 2 * viewportPadding ≤ (1280 : ℚ) ∧
     buttonSize + 2 * viewportPadding ≤ (800 : ℚ)) ∧
    (positionButtonNearInput wideViewportRect 1280 800).1 + buttonSize ≤
      1280 - viewportPadding :=
  ⟨⟨by norm_num [buttonSize, viewportPadding], by norm_num [buttonSize, viewportPadding]⟩,
   (C8_clamped_within_padded_viewport wideViewportRect 1280 800
      (by norm_num [buttonSize, viewportPadding])
      (by norm_num [buttonSize, viewportPadding])).2.1⟩

/-! ### Claim C9: the SharedTextHandoff. -/

/-- Counterexample to claim C9 as stated: after an OPEN_POPUP_WITH_TEXT write
followed by a context-menu write, the store holds the context-menu text but
GET_LAST_TEXT still answers with the earlier message text — the context-menu
listener writes only chrome.storage, never the background's in-memory
lastSelectedText that GET_LAST_TEXT reads. -/
theorem C9_counterexample :
    (runHandoff handoffCounterexampleTrace).storedSelectedText = "selection beta" ∧
    getLastText (runHandoff handoffCounterexampleTrace) = "draft prompt alpha" ∧
    ("draft prompt alpha" : String) ≠ "selection beta" := by
  refine ⟨rfl, rfl, ?_⟩
  decide

/-- Claim C9, amended: GET_LAST_TEXT returns the text of the most recent
floating-button click or OPEN_POPUP_WITH_TEXT message (and then it agrees
with the store); a context-menu write updates only the storage entry and
leaves the value GET_LAST_TEXT returns unchanged, so the two can disagree
when the most recent write came from the context menu. -/
theorem C9_last_message_write_wins (es : List HandoffEvent) (t : String) (e : HandoffEvent)
    (h : e = HandoffEvent.openPopupWithText t ∨ e = HandoffEvent.floatingButtonClick t) :
    getLastText (runHandoff (es ++ [e])) = t ∧
    (runHandoff (es ++ [e])).storedSelectedText = t ∧
    (∀ (s : BackgroundState) (u : String),
       (handoffStep s (.contextMenuClick u)).lastSelectedText = s.lastSelectedText) := by
  have hrun : runHandoff (es ++ [e]) = handoffStep (runHandoff es) e := by
    unfold runHandoff
    rw [List.foldl_append]
    rfl
  refine ⟨?_, ?_, ?_⟩
  · rcases h with h | h <;> subst h <;> rw [hrun] <;> rfl
  · rcases h with h | h <;> subst h <;> rw [hrun] <;> rfl
  · intro s u
    show (if u.isEmpty then s
          else { s with storedSelectedText := u }).lastSelectedText = s.lastSelectedText
    split <;> rfl

/-- Witness for claim C9: an OPEN_POPUP_WITH_TEXT write arriving after a
context-menu write. -/
theorem C9_witness :
    (HandoffEvent.openPopupWithText "popup text gamma" =
       HandoffEvent.openPopupWithText "popup text gamma" ∨
     HandoffEvent.openPopupWithText "popup text gamma" =
       HandoffEvent.floatingButtonClick "popup text gamma") ∧
    getLastText (runHandoff ([HandoffEvent.contextMenuClick "older selection"] ++
      [HandoffEvent.openPopupWithText "popup text gamma"])) = "popup text gamma" :=
  ⟨Or.inl rfl,
   (C9_last_message_write_wins [HandoffEvent.contextMenuClick "older selection"]
      "popup text gamma" (HandoffEvent.openPopupWithText "popup text gamma")
      (Or.inl rfl)).1⟩

/-! ### Claim C10: injected-UI uniqueness. -/

theorem createFloatingButton_inv (s : InjectionState) (h : injectionInv s) :
    injectionInv (createFloatingButton s) := by
  obtain ⟨h1, h2, h3, h4, h5⟩ := h
  unfold createFloatingButton
  split
  · exact ⟨h1, h2, h3, h4, h5⟩
  · rename_i hset
    have hb : s.buttonDivSet = false := by
      cases hbb : s.buttonDivSet
      · rfl
      · exact absurd hbb hset
    have hatt : s.buttonRefAttached = false := by rw [← h3, hb]
    have hta : s.tooltipRefAttached = false := by rw [← h2, hatt]
    refine ⟨rfl, rfl, rfl, ?_, ?_⟩
    · show s.buttonsInDom + 1 = cond true 1 0
      rw [h4, hatt]
      rfl
    · show s.tooltipsInDom + 1 = cond true 1 0
      rw [h5, hta]
      rfl

theorem cleanup_inv (s : InjectionState) (h : injectionInv s) :
    injectionInv (cleanupOnContextInvalidation s) := by
  obtain ⟨h1, h2, h3, h4, h5⟩ := h
  cases hb : s.buttonDivSet
  · have hatt : s.buttonRefAttached = false := by rw [← h3, hb]
    have htd : s.tooltipDivSet = false := by rw [← h1, hb]
    have eb : cleanupButton s = s := by
      unfold cleanupButton
      rw [if_neg (fun hcon => Bool.noConfusion (hb ▸ hcon.1))]
    have et : cleanupTooltip s = s := by
      unfold cleanupTooltip
      rw [if_neg (fun hcon => Bool.noConfusion (htd ▸ hcon.1))]
    unfold cleanupOnContextInvalidation
    rw [eb, et]
    exact ⟨h1, h2, h3, h4, h5⟩
  · have hatt : s.buttonRefAttached = true := by rw [← h3, hb]
    have htd : s.tooltipDivSet = true := by rw [← h1, hb]
    have hta : s.tooltipRefAttached = true := by rw [← h2, hatt]
    have eb : cleanupButton s =
        { s with buttonsInDom := s.buttonsInDom - 1,
                 buttonRefAttached := false, buttonDivSet := false } := by
      unfold cleanupButton
      rw [if_pos ⟨hb, hatt⟩]
    have et : cleanupTooltip
        { s with buttonsInDom := s.buttonsInDom - 1,
                 buttonRefAttached := false, buttonDivSet := false } =
        { s with buttonsInDom := s.buttonsInDom - 1, buttonRefAttached := false,
                 buttonDivSet := false, tooltipsInDom := s.tooltipsInDom - 1,
                 tooltipRefAttached := false, tooltipDivSet := false } := by
      unfold cleanupTooltip
      rw [if_pos ⟨htd, hta⟩]
    unfold cleanupOnContextInvalidation
    rw [eb, et]
    refine ⟨rfl, rfl, rfl, ?_, ?_⟩
    · show s.buttonsInDom - 1 = cond false 1 0
      rw [h4, hatt]
      rfl
    · show s.tooltipsInDom - 1 = cond false 1 0
      rw [h5, hta]
      rfl

theorem injectionInv_step (s : InjectionState) (op : InjectionOp) (h : injectionInv s) :
    injectionInv (injectionStep s op) := by
  cases op with
  | initScript => exact createFloatingButton_inv s h
  | urlChangeReinit => exact createFloatingButton_inv s h
  | positionAttempt =>
    show injectionInv (if s.buttonDivSet then s else createFloatingButton s)
    split
    · exact h
    · exact createFloatingButton_inv s h
  | contextInvalidated => exact cleanup_inv s h

theorem injectionInv_foldl (ops : List InjectionOp) :
    ∀ s : InjectionState, injectionInv s → injectionInv (ops.foldl injectionStep s) := by
  induction ops with
  | nil => intro s h; exact h
  | cons op ops ih => intro s h; exact ih _ (injectionInv_step s op h)

theorem injectionInv_run (ops : List InjectionOp) : injectionInv (runInjection ops) :=
  injectionInv_foldl ops initialInjectionState ⟨rfl, rfl, rfl, rfl, rfl⟩

/-- Claim C10: along every sequence of initialization, reposition,
SPA-navigation reinitialization and teardown operations, at most one floating
button and one tooltip are attached to the page, and createFloatingButton is
idempotent — running it when the button already exists is a no-op. -/
theorem C10_injection_idempotent :
    (∀ ops : List InjectionOp, (runInjection ops).buttonsInDom ≤ 1 ∧
       (runInjection ops).tooltipsInDom ≤ 1) ∧
    (∀ s : InjectionState,
       createFloatingButton (createFloatingButton s) = createFloatingButton s) := by
  constructor
  · intro ops
    obtain ⟨_, _, _, h4, h5⟩ := injectionInv_run ops
    constructor
    · rw [h4]
      cases (runInjection ops).buttonRefAttached
      · exact Nat.zero_le 1
      · exact Nat.le_refl 1
    · rw [h5]
      cases (runInjection ops).tooltipRefAttached
      · exact Nat.zero_le 1
      · exact Nat.le_refl 1
  · intro s
    cases hb : s.buttonDivSet
    · have e : createFloatingButton s =
          { buttonDivSet := true, tooltipDivSet := true,
            buttonRefAttached := true, tooltipRefAttached := true,
            buttonsInDom := s.buttonsInDom + 1, tooltipsInDom := s.tooltipsInDom + 1 } := by
        unfold createFloatingButton
        rw [if_neg (fun hcon => Bool.noConfusion (hb ▸ hcon))]
      rw [e]
      unfold createFloatingButton
      rw [if_pos rfl]
    · have e : createFloatingButton s = s := by
        unfold createFloatingButton
        rw [if_pos hb]
      rw [e]
      exact e

end UsersPrompts
